import Mathlib

/-!
# CXGrammarBindings: the C entry points around the xgrammar library

A shallow embedding of `Sources/CXGrammarBindings` (`error_handler.cpp`,
`tokenizer_info.cpp`, `grammar_compiler.cpp`, `grammar_matcher.cpp`).

* Pointers (`void*`, the `error_handler_closure` function pointer) are natural
  numbers, `0` being `nullptr`.
* The process state touched by the entry points is a `World`: the file-static
  `_error_handler`, the trace of handler invocations, and the objects living
  behind handles.
* The xgrammar library itself is not part of these sources.  Its classes and
  member functions are the fields of a `Lib`; every entry point takes the
  library as a parameter.  A library call may return, throw an exception derived
  from `std::exception`, or throw an object of some other type (`Thrown`).
* An entry point either returns to its C caller, lets an exception propagate
  out of the function, or has undefined behaviour (`Ret`).
* Allocation failure inside the bindings themselves (`std::vector`,
  `std::string`) and the body of the registered handler are not modelled; an
  invocation of the handler is recorded as an event.
-/

namespace CXGrammarBindings

/-- One `char`. -/
abbrev Byte := UInt8

/-- A pointer value; `0` is `nullptr`. -/
abbrev Ptr := Nat

/-- Outcome of evaluating a C++ expression that may throw. -/
inductive Thrown (α : Type) where
  | value (a : α)
  | std_exception (what : String)
  | other_exception
deriving DecidableEq

/-- Arguments of `TokenizerInfo(encoded_vocab, VocabType(vocab_type), vocab_size, stops, false)`
(`tokenizer_info.cpp`, line 28), in the order of the call. -/
structure TokenizerInfoArgs where
  encoded_vocab : List (List Byte)
  vocab_type : Int
  vocab_size : Nat
  stops : List Int
  flag : Bool
deriving DecidableEq

/-- Arguments of `CompileJSONSchema(schema, false, opt_indent, std::nullopt, true, std::nullopt)`
(`grammar_compiler.cpp`, line 18), in the order of the call. -/
structure JSONSchemaArgs where
  schema : List Byte
  arg2 : Bool
  indent : Option Int
  arg4 : Option Unit
  arg5 : Bool
  arg6 : Option Unit
deriving DecidableEq

/-- The part of xgrammar the bindings call. -/
structure Lib where
  TokenizerInfo : Type
  CompiledGrammar : Type
  GrammarMatcher : Type
  DLTensor : Type
  /-- The expression `new TokenizerInfo(...)`. -/
  newTokenizerInfo : TokenizerInfoArgs → Thrown TokenizerInfo
  /-- The expression `new CompiledGrammar(GrammarCompiler(t).CompileJSONSchema(...))`. -/
  CompileJSONSchema : TokenizerInfo → JSONSchemaArgs → Thrown CompiledGrammar
  /-- The expression `new CompiledGrammar(GrammarCompiler(t).CompileStructuralTag(s))`. -/
  CompileStructuralTag : TokenizerInfo → List Byte → Thrown CompiledGrammar
  /-- The expression `new GrammarMatcher(g)`. -/
  newGrammarMatcher : CompiledGrammar → Thrown GrammarMatcher
  /-- The call `m->FillNextTokenBitmask(t)`: the matcher and tensor afterwards, and the outcome. -/
  FillNextTokenBitmask : GrammarMatcher → DLTensor → (GrammarMatcher × DLTensor) × Thrown Bool
  /-- The call `m->AcceptToken(token_id)`: the matcher afterwards, and the outcome. -/
  AcceptToken : GrammarMatcher → Int → GrammarMatcher × Thrown Bool
  /-- The call `m->Reset()`: the matcher afterwards, and the outcome. -/
  Reset : GrammarMatcher → GrammarMatcher × Thrown Unit

/-- An object living behind a pointer. -/
inductive Obj (L : Lib) where
  | tokenizer_info (t : L.TokenizerInfo)
  | compiled_grammar (g : L.CompiledGrammar)
  | grammar_matcher (m : L.GrammarMatcher)
  | dl_tensor (t : L.DLTensor)

/-- Process state seen by the bindings. -/
structure World (L : Lib) where
  /-- The `static error_handler_closure _error_handler` of `error_handler.cpp`. -/
  _error_handler : Ptr
  /-- Invocations of registered handlers so far, oldest first: handler and message. -/
  handler_calls : List (Ptr × String)
  /-- Live objects by address. -/
  heap : List (Ptr × Obj L)

/-- State at program start: static storage is zero-initialised, nothing allocated. -/
def World.initial (L : Lib) : World L :=
  { _error_handler := 0, handler_calls := [], heap := [] }

/-- The object at address `p`, if one is live there. -/
def World.lookup {L : Lib} (w : World L) (p : Ptr) : Option (Obj L) :=
  (w.heap.find? (fun e => e.1 == p)).map Prod.snd

/-- An address that is not null and holds no live object. -/
def World.fresh {L : Lib} (w : World L) : Ptr :=
  (w.heap.map Prod.fst).foldr max 0 + 1

/-- A `new` expression that succeeded: the object is placed at a fresh address. -/
def World.alloc {L : Lib} (w : World L) (o : Obj L) : World L × Ptr :=
  ({ w with heap := (w.fresh, o) :: w.heap }, w.fresh)

/-- A `delete` expression: the object at `p` ceases to exist.  The destructors of the library
classes are taken to have no other effect on this state. -/
def World.delete {L : Lib} (w : World L) (p : Ptr) : World L :=
  { w with heap := w.heap.filter (fun e => e.1 != p) }

/-- A member function changed the object at `p`. -/
def World.store {L : Lib} (w : World L) (p : Ptr) (o : Obj L) : World L :=
  { w with heap := w.heap.map (fun e => if e.1 == p then (p, o) else e) }

/-- How a call of an entry point ends. -/
inductive Ret (L : Lib) (α : Type) where
  /-- Normal return to the C caller. -/
  | returned (w : World L) (a : α)
  /-- An exception left the function. -/
  | escaped (w : World L)
  /-- Undefined behaviour: a read through a pointer that designates no suitable object. -/
  | undefined

/-! ## error_handler.cpp -/

/-- `set_error_handler`, lines 5-7. -/
def set_error_handler {L : Lib} (w : World L) (error_handler : Ptr) : World L :=
  { w with _error_handler := error_handler }

/-- `catch_error`, lines 9-13. -/
def catch_error {L : Lib} (w : World L) (error_message : String) : World L :=
  if w._error_handler ≠ 0 then
    { w with handler_calls := w.handler_calls ++ [(w._error_handler, error_message)] }
  else
    w

/-! ## tokenizer_info.cpp -/

/-- `std::string(const char*)`: the bytes before the first zero byte of the memory the pointer
designates; reading on when there is no zero byte is undefined. -/
def std_string (mem : List Byte) : Option (List Byte) :=
  if (0 : Byte) ∈ mem then some (mem.takeWhile (fun c => c != 0)) else none

/-- The loop `for (size_t i = 0; i < n; ++i) out.emplace_back(read i)`: the vector after `n`
rounds, `none` when some read is undefined. -/
def emplace_loop {β : Type} (read : Nat → Option β) : Nat → Option (List β)
  | 0 => some []
  | n + 1 =>
    match emplace_loop read n with
    | none => none
    | some out =>
      match read n with
      | none => none
      | some x => some (out ++ [x])

/-- Lines 17-28 of `tokenizer_info_new`: what is handed to the `TokenizerInfo` constructor.
`vocab` is the array of C strings (each entry the memory its pointer designates), `eos_tokens`
the array of ids. -/
def tokenizer_info_args (vocab : List (List Byte)) (vocab_size : Nat) (vocab_type : Int)
    (eos_tokens : List Int) (eos_tokens_size : Nat) : Option TokenizerInfoArgs :=
  match emplace_loop (fun i => vocab[i]?.bind std_string) vocab_size with
  | none => none
  | some encoded_vocab =>
    match emplace_loop (fun i => eos_tokens[i]?) eos_tokens_size with
    | none => none
    | some stops => some ⟨encoded_vocab, vocab_type, vocab_size, stops, false⟩

/-- `tokenizer_info_new`, lines 10-34. -/
def tokenizer_info_new (L : Lib) (w : World L) (vocab : List (List Byte)) (vocab_size : Nat)
    (vocab_type : Int) (eos_tokens : List Int) (eos_tokens_size : Nat) : Ret L Ptr :=
  match tokenizer_info_args vocab vocab_size vocab_type eos_tokens eos_tokens_size with
  | none => .undefined
  | some args =>
    match L.newTokenizerInfo args with
    | .value t => .returned (w.alloc (.tokenizer_info t)).1 (w.alloc (.tokenizer_info t)).2
    | .std_exception what => .returned (catch_error w what) 0
    | .other_exception => .escaped w

/-- `tokenizer_info_free`, lines 36-40. -/
def tokenizer_info_free (L : Lib) (w : World L) (tokenizer_info : Ptr) : Ret L Unit :=
  if tokenizer_info ≠ 0 then
    match w.lookup tokenizer_info with
    | some (.tokenizer_info _) => .returned (w.delete tokenizer_info) ()
    | _ => .undefined
  else
    .returned w ()

/-! ## grammar_compiler.cpp -/

/-- Line 15: `(indent >= 0) ? std::optional<int>(indent) : std::nullopt`. -/
def opt_indent (indent : Int) : Option Int :=
  if indent ≥ 0 then some indent else none

/-- `std::string(const char*, size_t)`: the first `len` bytes of the buffer. -/
def std_string_counted (buf : List Byte) (len : Nat) : List Byte :=
  buf.take len

/-- Lines 14-18 of `compile_json_schema_grammar`: what is handed to `CompileJSONSchema`. -/
def compile_json_schema_args (schema_utf8 : List Byte) (schema_len : Nat) (indent : Int) :
    JSONSchemaArgs :=
  ⟨std_string_counted schema_utf8 schema_len, false, opt_indent indent, none, true, none⟩

/-- `compile_json_schema_grammar`, lines 7-25.  Reading `schema_len` bytes from a shorter buffer
is undefined. -/
def compile_json_schema_grammar (L : Lib) (w : World L) (tokenizer_info : Ptr)
    (schema_utf8 : List Byte) (schema_len : Nat) (indent : Int) : Ret L Ptr :=
  if schema_len ≤ schema_utf8.length then
    match w.lookup tokenizer_info with
    | some (.tokenizer_info t) =>
      match L.CompileJSONSchema t (compile_json_schema_args schema_utf8 schema_len indent) with
      | .value g => .returned (w.alloc (.compiled_grammar g)).1 (w.alloc (.compiled_grammar g)).2
      | .std_exception what => .returned (catch_error w what) 0
      | .other_exception => .escaped w
    | _ => .undefined
  else
    .undefined

/-- Line 33 of `compile_structural_tag`: what is handed to `CompileStructuralTag`. -/
def compile_structural_tag_arg (structural_tag_utf8 : List Byte) (structural_tag_len : Nat) :
    List Byte :=
  std_string_counted structural_tag_utf8 structural_tag_len

/-- `compile_structural_tag`, lines 27-43. -/
def compile_structural_tag (L : Lib) (w : World L) (tokenizer_info : Ptr)
    (structural_tag_utf8 : List Byte) (structural_tag_len : Nat) : Ret L Ptr :=
  if structural_tag_len ≤ structural_tag_utf8.length then
    match w.lookup tokenizer_info with
    | some (.tokenizer_info t) =>
      match L.CompileStructuralTag t
          (compile_structural_tag_arg structural_tag_utf8 structural_tag_len) with
      | .value g => .returned (w.alloc (.compiled_grammar g)).1 (w.alloc (.compiled_grammar g)).2
      | .std_exception what => .returned (catch_error w what) 0
      | .other_exception => .escaped w
    | _ => .undefined
  else
    .undefined

/-- `compiled_grammar_free`, lines 45-49. -/
def compiled_grammar_free (L : Lib) (w : World L) (compiled_grammar : Ptr) : Ret L Unit :=
  if compiled_grammar ≠ 0 then
    match w.lookup compiled_grammar with
    | some (.compiled_grammar _) => .returned (w.delete compiled_grammar) ()
    | _ => .undefined
  else
    .returned w ()

/-! ## grammar_matcher.cpp -/

/-- `grammar_matcher_new`, lines 8-17. -/
def grammar_matcher_new (L : Lib) (w : World L) (compiled_grammar : Ptr) : Ret L Ptr :=
  match w.lookup compiled_grammar with
  | some (.compiled_grammar g) =>
    match L.newGrammarMatcher g with
    | .value m => .returned (w.alloc (.grammar_matcher m)).1 (w.alloc (.grammar_matcher m)).2
    | .std_exception what => .returned (catch_error w what) 0
    | .other_exception => .escaped w
  | _ => .undefined

/-- `grammar_matcher_fill_next_token_bitmask`, lines 19-31.  The tensor is caller memory; the
library reads and writes it through the pointer, so a pointer that designates no tensor is
undefined. -/
def grammar_matcher_fill_next_token_bitmask (L : Lib) (w : World L) (grammar_matcher : Ptr)
    (next_token_bitmask : Ptr) : Ret L Bool :=
  match w.lookup grammar_matcher, w.lookup next_token_bitmask with
  | some (.grammar_matcher m), some (.dl_tensor t) =>
    let w1 := (w.store grammar_matcher (.grammar_matcher (L.FillNextTokenBitmask m t).1.1)).store
      next_token_bitmask (.dl_tensor (L.FillNextTokenBitmask m t).1.2)
    match (L.FillNextTokenBitmask m t).2 with
    | .value b => .returned w1 b
    | .std_exception what => .returned (catch_error w1 what) false
    | .other_exception => .escaped w1
  | _, _ => .undefined

/-- `grammar_matcher_accept_token`, lines 33-44. -/
def grammar_matcher_accept_token (L : Lib) (w : World L) (grammar_matcher : Ptr)
    (token_id : Int) : Ret L Bool :=
  match w.lookup grammar_matcher with
  | some (.grammar_matcher m) =>
    let w1 := w.store grammar_matcher (.grammar_matcher (L.AcceptToken m token_id).1)
    match (L.AcceptToken m token_id).2 with
    | .value b => .returned w1 b
    | .std_exception what => .returned (catch_error w1 what) false
    | .other_exception => .escaped w1
  | _ => .undefined

/-- `grammar_matcher_reset`, lines 46-54.  The function is declared `void`; the operand of the
`return false;` in its handler (line 52) has no counterpart. -/
def grammar_matcher_reset (L : Lib) (w : World L) (grammar_matcher : Ptr) : Ret L Unit :=
  match w.lookup grammar_matcher with
  | some (.grammar_matcher m) =>
    let w1 := w.store grammar_matcher (.grammar_matcher (L.Reset m).1)
    match (L.Reset m).2 with
    | .value _ => .returned w1 ()
    | .std_exception what => .returned (catch_error w1 what) ()
    | .other_exception => .escaped w1
  | _ => .undefined

/-- `grammar_matcher_free`, lines 56-60. -/
def grammar_matcher_free (L : Lib) (w : World L) (grammar_matcher : Ptr) : Ret L Unit :=
  if grammar_matcher ≠ 0 then
    match w.lookup grammar_matcher with
    | some (.grammar_matcher _) => .returned (w.delete grammar_matcher) ()
    | _ => .undefined
  else
    .returned w ()

/-! ## Reading the result of a call -/

/-- The value handed back to the C caller, when the call returned. -/
def Ret.value? {L : Lib} {α : Type} : Ret L α → Option α
  | .returned _ a => some a
  | _ => none

/-- An exception left the entry point. -/
def Ret.isEscaped {L : Lib} {α : Type} : Ret L α → Bool
  | .escaped _ => true
  | _ => false

/-- The call, started in `w`, returned `a`, and the handler invocations made during it are
exactly `calls`, in this order. -/
def Ret.returns_with {L : Lib} {α : Type} (r : Ret L α) (w : World L) (a : α)
    (calls : List (Ptr × String)) : Prop :=
  match r with
  | .returned w' a' => a' = a ∧ w'.handler_calls = w.handler_calls ++ calls
  | _ => False

/-- A byte string laid out in memory as a C string: its bytes, then the terminating zero byte.
This is the form in which a `const char*` entry of `vocab` carries a token. -/
def c_str (s : List Byte) : List Byte :=
  s ++ [0]

/-! ## A small library to run the entry points on -/

/-- A stand-in for xgrammar with all three kinds of outcome: each call succeeds on some
arguments, throws a `std::exception` on others and throws another object on the rest. -/
def probeLib : Lib where
  TokenizerInfo := TokenizerInfoArgs
  CompiledGrammar := List Byte
  GrammarMatcher := List Int
  DLTensor := Nat
  newTokenizerInfo := fun a =>
    if a.vocab_type = 0 ∨ a.vocab_type = 1 ∨ a.vocab_type = 2 then .value a
    else if a.vocab_type = 3 then .std_exception "invalid vocabulary type"
    else .other_exception
  CompileJSONSchema := fun _ a =>
    if a.schema = [] then .std_exception "empty schema"
    else if a.schema.head? = some 0 then .other_exception
    else .value a.schema
  CompileStructuralTag := fun _ s =>
    if s = [] then .std_exception "empty structural tag"
    else if s.head? = some 0 then .other_exception
    else .value s
  newGrammarMatcher := fun g =>
    if g.length = 1 then .std_exception "grammar too short"
    else if g.length = 2 then .other_exception
    else .value []
  FillNextTokenBitmask := fun m t =>
    if t = 0 then ((m, t), .std_exception "empty bitmask")
    else if t = 1 then ((m, t), .other_exception)
    else ((m, t + 1), .value (m.length < t))
  AcceptToken := fun m token_id =>
    if token_id < 0 then (m, .std_exception "negative token id")
    else if 1000 ≤ token_id then (m, .other_exception)
    else (m ++ [token_id], .value (token_id % 2 == 0))
  Reset := fun m =>
    if m.length = 1 then (m, .std_exception "reset failed")
    else if m.length = 2 then (m, .other_exception)
    else ([], .value ())

/-- A state with handler `5` registered and one live object of each kind. -/
def probeWorld : World probeLib :=
  { _error_handler := 5
    handler_calls := []
    heap := [(1, .tokenizer_info (⟨[[97]], 0, 1, [], false⟩ : TokenizerInfoArgs)),
      (2, .compiled_grammar ([123, 125, 10] : List Byte)),
      (3, .grammar_matcher ([] : List Int)), (4, .dl_tensor (6 : Nat)),
      (6, .grammar_matcher ([7, 8] : List Int)),
      (7, .compiled_grammar ([123, 125] : List Byte)), (8, .dl_tensor (1 : Nat)),
      (9, .dl_tensor (0 : Nat)), (10, .compiled_grammar ([123] : List Byte)),
      (11, .grammar_matcher ([7] : List Int))] }

/-! ## The vocabulary constructor as the specification describes it -/

/-- Modelled from the spec: the `VocabularyModel` of sections 3 and 4.1, standing for the
`TokenizerInfo` class of xgrammar, whose code is not among these sources.  "tokens: ordered
sequence of byte-strings indexed by token id", an encoding tag, and "stop_tokens: set of token
id". -/
structure VocabularyModel where
  tokens : List (List Byte)
  encoding : Int
  vocab_size : Nat
  stop_tokens : List Int
deriving DecidableEq

/-- Modelled from the spec: construction of a `VocabularyModel` (section 4.1), standing for the
constructor of xgrammar's `TokenizerInfo`, whose code is not among these sources: "Fails with
InvalidVocabulary if any entry cannot be decoded under the declared encoding, or if a stop-token
id is out of range."  Which entries decode under which encoding is left as the parameter
`decodable`.  The failure is taken to be a `std::exception` carrying the name of the error, the
kind of failure the entry point turns into its failure signal. -/
def VocabularyModel.construct (decodable : Int → List Byte → Bool) (a : TokenizerInfoArgs) :
    Thrown VocabularyModel :=
  if a.encoded_vocab.all (decodable a.vocab_type)
      ∧ a.stops.all (fun s => decide (0 ≤ s ∧ s < (a.vocab_size : Int))) then
    .value ⟨a.encoded_vocab, a.vocab_type, a.vocab_size, a.stops⟩
  else
    .std_exception "InvalidVocabulary"

/-- Modelled from the spec: a library whose vocabulary constructor is
`VocabularyModel.construct`.  The grammar and matcher classes, which `tokenizer_info_new` does
not touch, are left without content. -/
def vocabularyLib (decodable : Int → List Byte → Bool) : Lib where
  TokenizerInfo := VocabularyModel
  CompiledGrammar := Unit
  GrammarMatcher := Unit
  DLTensor := Unit
  newTokenizerInfo := VocabularyModel.construct decodable
  CompileJSONSchema := fun _ _ => .value ()
  CompileStructuralTag := fun _ _ => .value ()
  newGrammarMatcher := fun _ => .value ()
  FillNextTokenBitmask := fun m t => ((m, t), .value true)
  AcceptToken := fun m _ => (m, .value true)
  Reset := fun m => (m, .value ())

/-! ## Facts about the heap and the loops -/

theorem lookup_alloc {L : Lib} (w : World L) (o : Obj L) :
    (w.alloc o).1.lookup (w.alloc o).2 = some o := by
  simp [World.alloc, World.lookup]

theorem alloc_ne_null {L : Lib} (w : World L) (o : Obj L) : (w.alloc o).2 ≠ 0 := by
  simp [World.alloc, World.fresh]

theorem lookup_delete_self {L : Lib} (w : World L) (p : Ptr) : (w.delete p).lookup p = none := by
  simp [World.delete, World.lookup, List.find?_eq_none]

theorem lookup_delete_other {L : Lib} (w : World L) (p q : Ptr) (h : q ≠ p) :
    (w.delete p).lookup q = w.lookup q := by
  simp only [World.delete, World.lookup]
  congr 1
  induction w.heap with
  | nil => rfl
  | cons e es ih =>
    obtain ⟨a, o⟩ := e
    by_cases hap : a = p
    · have haq : (a == q) = false := by
        simp only [beq_eq_false_iff_ne]
        exact fun h' => h (h'.symm.trans hap)
      have hpq : (p == q) = false := by rw [← hap]; exact haq
      simp [List.filter_cons, List.find?_cons, hap, hpq, ih]
    · by_cases haq : a = q
      · simp [List.filter_cons, List.find?_cons, hap, haq]
        subst haq
        simp [hap]
      · simp [List.filter_cons, List.find?_cons, hap, haq, ih]

theorem takeWhile_c_str (s : List Byte) :
    (c_str s).takeWhile (fun c => c != 0) = s.takeWhile (fun c => c != 0) := by
  induction s with
  | nil => simp [c_str]
  | cons c cs ih =>
    simp only [c_str, List.cons_append] at ih ⊢
    by_cases hc : c = 0
    · simp [List.takeWhile_cons, hc]
    · simp [List.takeWhile_cons, hc, ih]

theorem std_string_c_str (s : List Byte) :
    std_string (c_str s) = some (s.takeWhile (fun c => c != 0)) := by
  have h0 : (0 : Byte) ∈ c_str s := by simp [c_str]
  simp [std_string, h0, takeWhile_c_str]

theorem takeWhile_eq_self_of_no_zero (s : List Byte) (h : (0 : Byte) ∉ s) :
    s.takeWhile (fun c => c != 0) = s := by
  induction s with
  | nil => rfl
  | cons c cs ih =>
    have hc : c ≠ 0 := fun e => h (by simp [e])
    have hcs : (0 : Byte) ∉ cs := fun e => h (by simp [e])
    simp [List.takeWhile_cons, hc, ih hcs]

theorem emplace_loop_take {α β : Type} (xs : List α) (f : α → Option β) (g : α → β)
    (hf : ∀ x, f x = some (g x)) (n : Nat) (hn : n ≤ xs.length) :
    emplace_loop (fun i => xs[i]?.bind f) n = some ((xs.take n).map g) := by
  induction n with
  | zero => simp [emplace_loop]
  | succ k ih =>
    have hk : k < xs.length := hn
    have ih' := ih (Nat.le_of_lt hk)
    have hget : xs[k]? = some xs[k] := List.getElem?_eq_getElem hk
    have htake : xs.take (k + 1) = xs.take k ++ [xs[k]] := by
      rw [List.take_succ, hget]
      rfl
    rw [emplace_loop, ih', htake]
    simp only [hget, Option.some_bind, hf, List.map_append, List.map_cons, List.map_nil]

theorem tokenizer_info_args_c_str (toks : List (List Byte)) (vocab_type : Int)
    (stops : List Int) :
    tokenizer_info_args (toks.map c_str) toks.length vocab_type stops stops.length
      = some ⟨toks.map (fun t => t.takeWhile (fun c => c != 0)), vocab_type, toks.length, stops,
          false⟩ := by
  have hstr : ∀ m, std_string (c_str m) = some (m.takeWhile (fun c => c != 0)) :=
    std_string_c_str
  have hv : emplace_loop (fun (i : Nat) => (toks.map c_str)[i]?.bind std_string) toks.length
      = some (toks.map (fun t => t.takeWhile (fun c => c != 0))) := by
    have h := emplace_loop_take toks (fun t => std_string (c_str t))
      (fun t => t.takeWhile (fun c => c != 0)) hstr toks.length (Nat.le_refl _)
    have hfun : (fun (i : Nat) => (toks.map c_str)[i]?.bind std_string)
        = (fun (i : Nat) => toks[i]?.bind (fun t => std_string (c_str t))) := by
      funext i
      rw [List.getElem?_map]
      cases toks[i]? <;> rfl
    rw [hfun, h, List.take_length]
  have hs : emplace_loop (fun (i : Nat) => stops[i]?) stops.length = some stops := by
    have h := emplace_loop_take stops (fun s => some s) (fun s => s) (fun _ => rfl)
      stops.length (Nat.le_refl _)
    have hfun : (fun (i : Nat) => stops[i]?)
        = (fun (i : Nat) => stops[i]?.bind (fun s => some s)) := by
      funext i
      cases stops[i]? <;> rfl
    rw [hfun, h, List.take_length, List.map_id']
  rw [tokenizer_info_args, hv, hs]

theorem foldl_set_error_handler {L : Lib} (hs : List Ptr) (w : World L) :
    (hs.foldl set_error_handler w).handler_calls = w.handler_calls
      ∧ (hs.foldl set_error_handler w).heap = w.heap := by
  induction hs generalizing w with
  | nil => simp
  | cons h hs ih =>
    obtain ⟨h1, h2⟩ := ih (set_error_handler w h)
    exact ⟨by simpa [set_error_handler] using h1, by simpa [set_error_handler] using h2⟩

/-! ## The error handler cell (C10) -/

/-- C10: the registration is one overwritable cell.  At program start no handler is registered
and `catch_error` changes nothing.  After any sequence `hs` of `set_error_handler` calls followed
by one more with handler `h`, the cell holds `h`; `catch_error m` then adds exactly the one
invocation `(h, m)` to the trace when `h` is not null and nothing when it is null, whatever
handlers were registered before.  `catch_error` never changes the cell, and neither function
touches the objects behind handles. -/
theorem error_handler_is_single_cell (L : Lib) :
    (World.initial L)._error_handler = 0
    ∧ (∀ m : String, catch_error (World.initial L) m = World.initial L)
    ∧ (∀ (w : World L) (hs : List Ptr) (h : Ptr) (m : String),
        (set_error_handler (hs.foldl set_error_handler w) h)._error_handler = h
        ∧ (catch_error (set_error_handler (hs.foldl set_error_handler w) h) m).handler_calls
            = w.handler_calls ++ (if h = 0 then [] else [(h, m)])
        ∧ (catch_error (set_error_handler (hs.foldl set_error_handler w) h) m).heap = w.heap)
    ∧ (∀ (w : World L) (m : String),
        (catch_error w m)._error_handler = w._error_handler ∧ (catch_error w m).heap = w.heap) := by
  refine ⟨rfl, fun m => by simp [catch_error, World.initial], ?_, ?_⟩
  · intro w hs h m
    obtain ⟨h1, h2⟩ := foldl_set_error_handler hs w
    refine ⟨rfl, ?_, ?_⟩
    · by_cases hz : h = 0
      · simp [catch_error, set_error_handler, hz, h1]
      · simp [catch_error, set_error_handler, hz, h1]
    · by_cases hz : h = 0
      · simp [catch_error, set_error_handler, hz, h2]
      · simp [catch_error, set_error_handler, hz, h2]
  · intro w m
    by_cases hz : w._error_handler = 0
    · simp [catch_error, hz]
    · simp [catch_error, hz]

/-! ## The indent option (C3) -/

/-- C3: for every signed `indent`, the indent option `compile_json_schema_grammar` hands to the
schema compiler is absent exactly when `indent < 0` and is otherwise `indent` itself; a value that
is present is never negative, and `indent = 0` is handed on as an indent of zero. -/
theorem indent_option_absent_iff_negative (schema_utf8 : List Byte) (schema_len : Nat)
    (indent : Int) :
    ((compile_json_schema_args schema_utf8 schema_len indent).indent = none ↔ indent < 0)
    ∧ (compile_json_schema_args schema_utf8 schema_len indent).indent
        = (if indent < 0 then none else some indent)
    ∧ (∀ v, (compile_json_schema_args schema_utf8 schema_len indent).indent = some v → 0 ≤ v)
    ∧ (compile_json_schema_args schema_utf8 schema_len 0).indent = some 0 := by
  have hdef : (compile_json_schema_args schema_utf8 schema_len indent).indent
      = (if indent ≥ 0 then some indent else none) := rfl
  refine ⟨?_, ?_, ?_, rfl⟩
  · rw [hdef]
    by_cases hi : indent ≥ 0
    · rw [if_pos hi]
      exact ⟨fun h => Option.noConfusion h, fun h => absurd hi (by omega)⟩
    · rw [if_neg hi]
      exact ⟨fun _ => by omega, fun _ => rfl⟩
  · rw [hdef]
    by_cases hi : indent ≥ 0
    · rw [if_pos hi, if_neg (by omega)]
    · rw [if_neg hi, if_pos (by omega)]
  · intro v hv
    rw [hdef] at hv
    by_cases hi : indent ≥ 0
    · rw [if_pos hi] at hv
      have : indent = v := Option.some.inj hv
      omega
    · rw [if_neg hi] at hv
      exact Option.noConfusion hv

/-- C3 at `indent = 4`: the option is present, equal to `4`, and not negative. -/
theorem indent_option_absent_iff_negative_witness :
    (compile_json_schema_args [123, 125] 2 4).indent = some 4 ∧ (0 : Int) ≤ 4 :=
  ⟨by decide,
    (indent_option_absent_iff_negative [123, 125] 2 4).2.2.1 4 (by decide)⟩

/-! ## The source string (C4) -/

/-- C4: for every buffer `b` and length `n` not exceeding its size, the string handed to the
grammar compiler by `compile_json_schema_grammar` and by `compile_structural_tag` is exactly the
first `n` bytes of `b`: it has length `n` and agrees with `b` at every position below `n`,
whether or not `b` contains zero bytes. -/
theorem source_string_is_first_n_bytes (b : List Byte) (n : Nat) (indent : Int)
    (hn : n ≤ b.length) :
    (compile_json_schema_args b n indent).schema = b.take n
    ∧ (compile_json_schema_args b n indent).schema.length = n
    ∧ (∀ i, i < n → (compile_json_schema_args b n indent).schema.get? i = b.get? i)
    ∧ compile_structural_tag_arg b n = b.take n
    ∧ (compile_structural_tag_arg b n).length = n
    ∧ (∀ i, i < n → (compile_structural_tag_arg b n).get? i = b.get? i) := by
  have hlen : (b.take n).length = n := by simp [List.length_take, hn]
  have hget : ∀ i, i < n → (b.take n).get? i = b.get? i := by
    intro i hi
    simp [List.getElem?_take, hi]
  exact ⟨rfl, hlen, hget, rfl, hlen, hget⟩

/-- C4 on the buffer `7b 00 7d 41` with length 3: the string is `7b 00 7d`, zero byte kept, the
fourth byte left out. -/
theorem source_string_is_first_n_bytes_witness :
    (3 ≤ ([123, 0, 125, 65] : List Byte).length)
    ∧ (compile_json_schema_args [123, 0, 125, 65] 3 (-1)).schema = [123, 0, 125]
    ∧ compile_structural_tag_arg [123, 0, 125, 65] 3 = [123, 0, 125] :=
  ⟨by decide,
    (source_string_is_first_n_bytes [123, 0, 125, 65] 3 (-1) (by decide)).1,
    (source_string_is_first_n_bytes [123, 0, 125, 65] 3 (-1) (by decide)).2.2.2.1⟩

/-! ## The destructors (C5) -/

/-- C5: each of `tokenizer_info_free`, `compiled_grammar_free` and `grammar_matcher_free`, called
with the null handle, returns leaving the whole state as it was: the same live objects, the same
registered handler, no handler invocation.  Called with a non-null handle that designates a live
object of its kind, it returns a state in which that address holds no object any more, every
other address holds what it held before, and handler and trace are unchanged. -/
theorem free_null_noop_live_destroys_one (L : Lib) (w : World L) :
    tokenizer_info_free L w 0 = .returned w ()
    ∧ compiled_grammar_free L w 0 = .returned w ()
    ∧ grammar_matcher_free L w 0 = .returned w ()
    ∧ (∀ p t, p ≠ 0 → w.lookup p = some (.tokenizer_info t) →
        tokenizer_info_free L w p = .returned (w.delete p) ())
    ∧ (∀ p g, p ≠ 0 → w.lookup p = some (.compiled_grammar g) →
        compiled_grammar_free L w p = .returned (w.delete p) ())
    ∧ (∀ p m, p ≠ 0 → w.lookup p = some (.grammar_matcher m) →
        grammar_matcher_free L w p = .returned (w.delete p) ())
    ∧ (∀ p, (w.delete p).lookup p = none
        ∧ (∀ q, q ≠ p → (w.delete p).lookup q = w.lookup q)
        ∧ (w.delete p)._error_handler = w._error_handler
        ∧ (w.delete p).handler_calls = w.handler_calls) := by
  refine ⟨by simp [tokenizer_info_free], by simp [compiled_grammar_free],
    by simp [grammar_matcher_free], ?_, ?_, ?_, ?_⟩
  · intro p t hp hl
    simp [tokenizer_info_free, hp, hl]
  · intro p g hp hl
    simp [compiled_grammar_free, hp, hl]
  · intro p m hp hl
    simp [grammar_matcher_free, hp, hl]
  · intro p
    exact ⟨lookup_delete_self w p, fun q hq => lookup_delete_other w p q hq, rfl, rfl⟩

/-- C5 on a state with objects at addresses 1 to 4 and 6 to 11: freeing the tokenizer at 1, the
grammar at 2 and the matcher at 3 each remove that object only. -/
theorem free_null_noop_live_destroys_one_witness :
    ((1 : Ptr) ≠ 0 ∧ tokenizer_info_free probeLib probeWorld 1 = .returned (probeWorld.delete 1) ())
    ∧ ((2 : Ptr) ≠ 0
        ∧ compiled_grammar_free probeLib probeWorld 2 = .returned (probeWorld.delete 2) ())
    ∧ ((3 : Ptr) ≠ 0
        ∧ grammar_matcher_free probeLib probeWorld 3 = .returned (probeWorld.delete 3) ())
    ∧ ((2 : Ptr) ≠ 1 ∧ (probeWorld.delete 1).lookup 2 = probeWorld.lookup 2) :=
  ⟨⟨by decide, (free_null_noop_live_destroys_one probeLib probeWorld).2.2.2.1 1 _
      (by decide) rfl⟩,
    ⟨by decide, (free_null_noop_live_destroys_one probeLib probeWorld).2.2.2.2.1 2 _
      (by decide) rfl⟩,
    ⟨by decide, (free_null_noop_live_destroys_one probeLib probeWorld).2.2.2.2.2.1 3 _
      (by decide) rfl⟩,
    ⟨by decide, ((free_null_noop_live_destroys_one probeLib probeWorld).2.2.2.2.2.2 1).2.1 2
      (by decide)⟩⟩

/-! ## What the vocabulary constructor receives (C6) -/

/-- C6, as stated, fails on a token containing a zero byte: for the one-token vocabulary whose
token is the three bytes `61 00 62`, the constructor receives the token `61`, not `61 00 62`. -/
theorem token_with_zero_byte_is_cut :
    tokenizer_info_args [c_str [97, 0, 98]] 1 0 [] 0 = some ⟨[[97]], 0, 1, [], false⟩
    ∧ tokenizer_info_args [c_str [97, 0, 98]] 1 0 [] 0 ≠ some ⟨[[97, 0, 98]], 0, 1, [], false⟩ := by
  decide

/-- C6, amended: for every list `toks` of token byte-strings, passed as C strings, and every
list `stops` of stop-token ids, `tokenizer_info_new` hands the constructor a token list with as
many entries as `toks` whose entry `i` is the part of `toks[i]` before its first zero byte, the
vocabulary size `toks.length`, and the stop list `stops` itself; a token without a zero byte
arrives unchanged. -/
theorem constructor_receives_tokens_up_to_zero_byte (toks : List (List Byte)) (vocab_type : Int)
    (stops : List Int) :
    tokenizer_info_args (toks.map c_str) toks.length vocab_type stops stops.length
      = some ⟨toks.map (fun t => t.takeWhile (fun c => c != 0)), vocab_type, toks.length, stops,
          false⟩
    ∧ (toks.map (fun t => t.takeWhile (fun c => c != 0))).length = toks.length
    ∧ (∀ (i : Nat) (t : List Byte), toks[i]? = some t →
        (toks.map (fun t => t.takeWhile (fun c => c != 0)))[i]?
          = some (t.takeWhile (fun c => c != 0)))
    ∧ (∀ (i : Nat) (t : List Byte), toks[i]? = some t → (0 : Byte) ∉ t →
        (toks.map (fun t => t.takeWhile (fun c => c != 0)))[i]? = some t) := by
  refine ⟨tokenizer_info_args_c_str toks vocab_type stops, List.length_map _ _, ?_, ?_⟩
  · intro i t hi
    rw [List.getElem?_map, hi]
    rfl
  · intro i t hi h0
    rw [List.getElem?_map, hi, Option.map_some', takeWhile_eq_self_of_no_zero t h0]

/-- C6, amended, on the vocabulary `"a"`, `"{"` with stop list `1, 1`: both tokens arrive
unchanged and the stop list keeps its duplicate. -/
theorem constructor_receives_tokens_up_to_zero_byte_witness :
    tokenizer_info_args [c_str [97], c_str [123]] 2 0 [1, 1] 2
      = some ⟨[[97], [123]], 0, 2, [1, 1], false⟩
    ∧ ([[97], [123]] : List (List Byte))[1]? = some [123]
    ∧ (0 : Byte) ∉ ([123] : List Byte)
    ∧ (([[97], [123]] : List (List Byte)).map (fun t => t.takeWhile (fun c => c != 0)))[1]?
        = some [123] :=
  ⟨(constructor_receives_tokens_up_to_zero_byte [[97], [123]] 0 [1, 1]).1,
    rfl, by decide,
    (constructor_receives_tokens_up_to_zero_byte [[97], [123]] 0 [1, 1]).2.2.2 1 [123] rfl
      (by decide)⟩

/-! ## Reporting through the handler (C1) -/

/-- C1: with a handler `h` registered (not null), for each of `tokenizer_info_new`,
`compile_json_schema_grammar`, `compile_structural_tag`, `grammar_matcher_new`,
`grammar_matcher_fill_next_token_bitmask` and `grammar_matcher_accept_token`: when the wrapped
library call throws a `std::exception` with message `m`, the entry point returns its failure
signal (null, respectively `false`) and the handler invocations made during the call are exactly
the one invocation of `h` with `m`; when the wrapped call succeeds, the entry point returns and
no handler invocation was made. -/
theorem handler_invoked_once_on_failure_never_on_success (L : Lib) (w : World L) (h : Ptr)
    (hreg : w._error_handler = h) (hnn : h ≠ 0) :
    (∀ vocab vocab_size vocab_type eos_tokens eos_tokens_size args,
      tokenizer_info_args vocab vocab_size vocab_type eos_tokens eos_tokens_size = some args →
      (∀ m, L.newTokenizerInfo args = .std_exception m →
        (tokenizer_info_new L w vocab vocab_size vocab_type eos_tokens
          eos_tokens_size).returns_with w 0 [(h, m)])
      ∧ (∀ t, L.newTokenizerInfo args = .value t →
        ∃ p, (tokenizer_info_new L w vocab vocab_size vocab_type eos_tokens
          eos_tokens_size).returns_with w p []))
    ∧ (∀ tokenizer_info t schema_utf8 schema_len indent,
      schema_len ≤ schema_utf8.length → w.lookup tokenizer_info = some (.tokenizer_info t) →
      (∀ m, L.CompileJSONSchema t (compile_json_schema_args schema_utf8 schema_len indent)
          = .std_exception m →
        (compile_json_schema_grammar L w tokenizer_info schema_utf8 schema_len
          indent).returns_with w 0 [(h, m)])
      ∧ (∀ g, L.CompileJSONSchema t (compile_json_schema_args schema_utf8 schema_len indent)
          = .value g →
        ∃ p, (compile_json_schema_grammar L w tokenizer_info schema_utf8 schema_len
          indent).returns_with w p []))
    ∧ (∀ tokenizer_info t structural_tag_utf8 structural_tag_len,
      structural_tag_len ≤ structural_tag_utf8.length →
      w.lookup tokenizer_info = some (.tokenizer_info t) →
      (∀ m, L.CompileStructuralTag t
          (compile_structural_tag_arg structural_tag_utf8 structural_tag_len)
          = .std_exception m →
        (compile_structural_tag L w tokenizer_info structural_tag_utf8
          structural_tag_len).returns_with w 0 [(h, m)])
      ∧ (∀ g, L.CompileStructuralTag t
          (compile_structural_tag_arg structural_tag_utf8 structural_tag_len) = .value g →
        ∃ p, (compile_structural_tag L w tokenizer_info structural_tag_utf8
          structural_tag_len).returns_with w p []))
    ∧ (∀ compiled_grammar g, w.lookup compiled_grammar = some (.compiled_grammar g) →
      (∀ m, L.newGrammarMatcher g = .std_exception m →
        (grammar_matcher_new L w compiled_grammar).returns_with w 0 [(h, m)])
      ∧ (∀ gm, L.newGrammarMatcher g = .value gm →
        ∃ p, (grammar_matcher_new L w compiled_grammar).returns_with w p []))
    ∧ (∀ grammar_matcher next_token_bitmask gm t,
      w.lookup grammar_matcher = some (.grammar_matcher gm) →
      w.lookup next_token_bitmask = some (.dl_tensor t) →
      (∀ m, (L.FillNextTokenBitmask gm t).2 = .std_exception m →
        (grammar_matcher_fill_next_token_bitmask L w grammar_matcher
          next_token_bitmask).returns_with w false [(h, m)])
      ∧ (∀ b, (L.FillNextTokenBitmask gm t).2 = .value b →
        (grammar_matcher_fill_next_token_bitmask L w grammar_matcher
          next_token_bitmask).returns_with w b []))
    ∧ (∀ grammar_matcher token_id gm,
      w.lookup grammar_matcher = some (.grammar_matcher gm) →
      (∀ m, (L.AcceptToken gm token_id).2 = .std_exception m →
        (grammar_matcher_accept_token L w grammar_matcher token_id).returns_with w false
          [(h, m)])
      ∧ (∀ b, (L.AcceptToken gm token_id).2 = .value b →
        (grammar_matcher_accept_token L w grammar_matcher token_id).returns_with w b [])) := by
  subst hreg
  refine ⟨?_, ?_, ?_, ?_, ?_, ?_⟩
  · intro vocab vocab_size vocab_type eos_tokens eos_tokens_size args hargs
    refine ⟨fun m hm => ?_, fun t ht => ⟨(w.alloc (.tokenizer_info t)).2, ?_⟩⟩
    · simp [tokenizer_info_new, hargs, hm, Ret.returns_with, catch_error, hnn]
    · simp [tokenizer_info_new, hargs, ht, Ret.returns_with, World.alloc]
  · intro tokenizer_info t schema_utf8 schema_len indent hlen hl
    refine ⟨fun m hm => ?_, fun g hg => ⟨(w.alloc (.compiled_grammar g)).2, ?_⟩⟩
    · simp [compile_json_schema_grammar, hlen, hl, hm, Ret.returns_with, catch_error, hnn]
    · simp [compile_json_schema_grammar, hlen, hl, hg, Ret.returns_with, World.alloc]
  · intro tokenizer_info t structural_tag_utf8 structural_tag_len hlen hl
    refine ⟨fun m hm => ?_, fun g hg => ⟨(w.alloc (.compiled_grammar g)).2, ?_⟩⟩
    · simp [compile_structural_tag, hlen, hl, hm, Ret.returns_with, catch_error, hnn]
    · simp [compile_structural_tag, hlen, hl, hg, Ret.returns_with, World.alloc]
  · intro compiled_grammar g hl
    refine ⟨fun m hm => ?_, fun gm hg => ⟨(w.alloc (.grammar_matcher gm)).2, ?_⟩⟩
    · simp [grammar_matcher_new, hl, hm, Ret.returns_with, catch_error, hnn]
    · simp [grammar_matcher_new, hl, hg, Ret.returns_with, World.alloc]
  · intro grammar_matcher next_token_bitmask gm t hl ht
    refine ⟨fun m hm => ?_, fun b hb => ?_⟩
    · simp [grammar_matcher_fill_next_token_bitmask, hl, ht, hm, Ret.returns_with, catch_error,
        World.store, hnn]
    · simp [grammar_matcher_fill_next_token_bitmask, hl, ht, hb, Ret.returns_with, World.store]
  · intro grammar_matcher token_id gm hl
    refine ⟨fun m hm => ?_, fun b hb => ?_⟩
    · simp [grammar_matcher_accept_token, hl, hm, Ret.returns_with, catch_error, World.store,
        hnn]
    · simp [grammar_matcher_accept_token, hl, hb, Ret.returns_with, World.store]

/-- C1 with handler `5` registered: a vocabulary type the library rejects makes
`tokenizer_info_new` return null after the single invocation of handler `5` with the library's
message, a negative token id does the same for `grammar_matcher_accept_token`, and token `4` is
accepted without any invocation. -/
theorem handler_invoked_once_on_failure_never_on_success_witness :
    (5 : Ptr) ≠ 0
    ∧ (tokenizer_info_new probeLib probeWorld [c_str [97]] 1 3 [] 0).returns_with probeWorld 0
        [(5, "invalid vocabulary type")]
    ∧ (grammar_matcher_accept_token probeLib probeWorld 3 (-1)).returns_with probeWorld false
        [(5, "negative token id")]
    ∧ (grammar_matcher_accept_token probeLib probeWorld 3 4).returns_with probeWorld true [] :=
  ⟨by decide,
    ((handler_invoked_once_on_failure_never_on_success probeLib probeWorld 5 rfl (by decide)).1
      [c_str [97]] 1 3 [] 0 ⟨[[97]], 3, 1, [], false⟩ (by decide)).1 _ rfl,
    ((handler_invoked_once_on_failure_never_on_success probeLib probeWorld 5 rfl
      (by decide)).2.2.2.2.2 3 (-1) [] rfl).1 _ rfl,
    ((handler_invoked_once_on_failure_never_on_success probeLib probeWorld 5 rfl
      (by decide)).2.2.2.2.2 3 4 [] rfl).2 _ rfl⟩

/-! ## Exceptions that are not `std::exception` (C2, C7) -/

/-- C2 at a failing construction: when the wrapped constructor or compiler throws an object
whose type does not derive from `std::exception`, none of `tokenizer_info_new`,
`compile_json_schema_grammar`, `compile_structural_tag`, `grammar_matcher_new` returns a value,
so the null handle is not returned although the construction failed. -/
theorem failed_construction_without_null_return :
    probeLib.newTokenizerInfo ⟨[[97]], 9, 1, [], false⟩ = .other_exception
    ∧ (tokenizer_info_new probeLib probeWorld [c_str [97]] 1 9 [] 0).value? = none
    ∧ (compile_json_schema_grammar probeLib probeWorld 1 [0, 125] 2 (-1)).value? = none
    ∧ (compile_structural_tag probeLib probeWorld 1 [0, 125] 2).value? = none
    ∧ (grammar_matcher_new probeLib probeWorld 7).value? = none :=
  ⟨rfl, rfl, rfl, rfl, rfl⟩

/-- C7 at a library call that throws an object whose type does not derive from
`std::exception`: the exception leaves each of the seven entry points. -/
theorem exception_of_other_type_escapes :
    (tokenizer_info_new probeLib probeWorld [c_str [97]] 1 9 [] 0).isEscaped = true
    ∧ (compile_json_schema_grammar probeLib probeWorld 1 [0, 125] 2 (-1)).isEscaped = true
    ∧ (compile_structural_tag probeLib probeWorld 1 [0, 125] 2).isEscaped = true
    ∧ (grammar_matcher_new probeLib probeWorld 7).isEscaped = true
    ∧ (grammar_matcher_fill_next_token_bitmask probeLib probeWorld 3 8).isEscaped = true
    ∧ (grammar_matcher_accept_token probeLib probeWorld 3 1000).isEscaped = true
    ∧ (grammar_matcher_reset probeLib probeWorld 6).isEscaped = true := by
  decide

/-! ## Stop-token ids out of range (C8) -/

/-- C8, against the constructor as section 4.1 of the specification describes it: for every
vocabulary `toks` and every stop list containing an id `s` outside `[0, toks.length)`,
`tokenizer_info_new` returns the null handle, reports `InvalidVocabulary` and creates no object;
and whenever `tokenizer_info_new` returns a non-null handle, the vocabulary behind it has all its
stop tokens inside `[0, vocab_size)`. -/
theorem out_of_range_stop_token_fails (decodable : Int → List Byte → Bool)
    (w : World (vocabularyLib decodable)) (toks : List (List Byte)) (vocab_type : Int)
    (stops : List Int) (s : Int) (hs : s ∈ stops) (hout : s < 0 ∨ (toks.length : Int) ≤ s) :
    tokenizer_info_new (vocabularyLib decodable) w (toks.map c_str) toks.length vocab_type stops
        stops.length = .returned (catch_error w "InvalidVocabulary") 0
    ∧ (catch_error w "InvalidVocabulary").heap = w.heap
    ∧ (∀ vocab vocab_size vt eos_tokens eos_tokens_size w1 p,
        tokenizer_info_new (vocabularyLib decodable) w vocab vocab_size vt eos_tokens
          eos_tokens_size = .returned w1 p →
        p ≠ 0 →
        ∃ v : VocabularyModel, w1.lookup p = some (.tokenizer_info v)
          ∧ ∀ x ∈ v.stop_tokens, 0 ≤ x ∧ x < (v.vocab_size : Int)) := by
  refine ⟨?_, ?_, ?_⟩
  · have hbad : ¬ (∀ x ∈ stops, 0 ≤ x ∧ x < (toks.length : Int)) := by
      intro hall
      have := hall s hs
      omega
    have hcond : ¬ ((∀ x ∈ toks, decodable vocab_type (List.takeWhile (fun c => c != 0) x) = true)
        ∧ ∀ x ∈ stops, 0 ≤ x ∧ x < (toks.length : Int)) := fun hc => hbad hc.2
    simp [tokenizer_info_new, tokenizer_info_args_c_str, vocabularyLib,
      VocabularyModel.construct, hcond]
  · by_cases hz : w._error_handler = 0
    · simp [catch_error, hz]
    · simp [catch_error, hz]
  · intro vocab vocab_size vt eos_tokens eos_tokens_size w1 p hret hp
    unfold tokenizer_info_new at hret
    cases hargs : tokenizer_info_args vocab vocab_size vt eos_tokens eos_tokens_size with
    | none => simp [hargs] at hret
    | some args =>
      simp only [hargs] at hret
      cases hc : (vocabularyLib decodable).newTokenizerInfo args with
      | other_exception => simp [hc] at hret
      | std_exception what =>
        simp only [hc, Ret.returned.injEq] at hret
        exact absurd hret.2.symm hp
      | value v =>
        simp only [hc, Ret.returned.injEq] at hret
        obtain ⟨hw, hpp⟩ := hret
        refine ⟨v, ?_, ?_⟩
        · rw [← hw, ← hpp]
          exact lookup_alloc w _
        · have hc2 : VocabularyModel.construct decodable args = .value v := hc
          unfold VocabularyModel.construct at hc2
          split at hc2
          · rename_i hcond
            have hv : v = ⟨args.encoded_vocab, args.vocab_type, args.vocab_size, args.stops⟩ := by
              injection hc2 with h1
              exact h1.symm
            subst hv
            intro x hx
            have hall := hcond.2
            simp only [List.all_eq_true, decide_eq_true_eq] at hall
            exact hall x hx
          · cases hc2

/-- C8 on the vocabulary `"a"`, `"b"` with stop list `5`: the id `5` lies outside `[0, 2)`, and
`tokenizer_info_new` returns null. -/
theorem out_of_range_stop_token_fails_witness :
    ((5 : Int) ∈ ([5] : List Int) ∧ ((5 : Int) < 0 ∨ (([[97], [98]] : List (List Byte)).length : Int) ≤ 5))
    ∧ tokenizer_info_new (vocabularyLib (fun _ _ => true))
        (World.initial (vocabularyLib (fun _ _ => true))) [c_str [97], c_str [98]] 2 0 [5] 1
        = .returned (catch_error (World.initial (vocabularyLib (fun _ _ => true)))
            "InvalidVocabulary") 0 :=
  ⟨⟨by decide, by decide⟩,
    (out_of_range_stop_token_fails (fun _ _ => true)
      (World.initial (vocabularyLib (fun _ _ => true))) [[97], [98]] 0 [5] 5 (by decide)
      (by decide)).1⟩

end CXGrammarBindings
